import Mathlib

/-!
# Verification of `scripts/fix-md040.py`

A shallow embedding of the MD040 fixer: a line-oriented pass that inserts a
default language tag (`plaintext`) into bare opening code fences, plus the
per-file read/write wrapper and the batch driver `main`.

Modelling conventions:

* A line is a `String`, exactly as produced by Python's `readlines()`
  (terminators, when present, are part of the string).
* `line.rstrip()` is `rstrip` below; whitespace is modelled by the ASCII
  whitespace characters (space, tab, LF, CR, VT, FF), which are the ones the
  source's regexes and the markdown inputs exercise.
* `re.match(r'^```\s*$', s)` and `re.match(r'^```[a-zA-Z0-9_+-]+.*$', s)` are
  `matchBareFence` and `matchTaggedFence`; `$` matches at the end of the
  string or just before a terminating newline, and `.` does not cross a
  newline (`dotStarDollar` captures the `.*$` tail).
* File-system effects are made explicit: a read attempt is a `ReadResult`
  (success with contents, an `OSError`/`IOError`, or a `UnicodeDecodeError`),
  writability is a `Bool`.  The Python `except IOError` clause catches only
  the OS error: a `UnicodeDecodeError` (a `ValueError`) propagates out of
  `fix_md040_properly`, which the embedding records by returning `none`; the
  batch driver `runBatch` then stops, mirroring the interpreter unwinding
  `main` (the process still exits with a non-zero status).
-/

/-- ASCII whitespace, the character class stripped by `rstrip()` and matched
by the regex class `\s` on the inputs in scope. -/
def isPyWhitespace (c : Char) : Bool :=
  c == ' ' || c == '\t' || c == '\n' || c == '\r' || c == '\x0b' || c == '\x0c'

/-- Python's `line.rstrip()`: remove every trailing whitespace character. -/
def rstrip (s : String) : String :=
  ⟨(s.data.reverse.dropWhile isPyWhitespace).reverse⟩

/-- The backtick character, U+0060. -/
def backtick : Char := Char.ofNat 96

/-- `re.match(r'^```\s*$', s)`: three backticks followed only by whitespace. -/
def matchBareFence (s : String) : Bool :=
  match s.data with
  | c1 :: c2 :: c3 :: rest =>
      c1 == backtick && c2 == backtick && c3 == backtick && rest.all isPyWhitespace
  | _ => false

/-- The character class `[a-zA-Z0-9_+-]` of the tagged-fence regex. -/
def isTagChar (c : Char) : Bool :=
  c.isAlpha || c.isDigit || c == '_' || c == '+' || c == '-'

/-- `.*$` in a non-multiline Python regex: consumes characters other than
newline, then `$` holds at the end of input or just before a final newline. -/
def dotStarDollar : List Char → Bool
  | [] => true
  | c :: rest => if c == '\n' then rest.isEmpty else dotStarDollar rest

/-- `re.match(r'^```[a-zA-Z0-9_+-]+.*$', s)`: three backticks, at least one
tag character, then `.*$`. -/
def matchTaggedFence (s : String) : Bool :=
  match s.data with
  | c1 :: c2 :: c3 :: c4 :: rest =>
      c1 == backtick && c2 == backtick && c3 == backtick &&
        isTagChar c4 && dotStarDollar rest
  | _ => false

/-- The line the source appends for a bare opening fence:
the literal `'```plaintext\n'`, newline included. -/
def plaintextLine : String := "```plaintext\n"

/-- One iteration of the loop body of `fix_md040_properly`: given the
`inside_code_block` flag and the current line, return the emitted line, the
new flag, and the number of fixes contributed (0 or 1). -/
def fixLineStep (inside : Bool) (line : String) : String × Bool × Nat :=
  if matchBareFence (rstrip line) then
    if !inside then (plaintextLine, true, 1)
    else (line, false, 0)
  else if matchTaggedFence (rstrip line) then
    (line, true, 0)
  else
    (line, inside, 0)

/-- The whole loop of `fix_md040_properly`, started from an arbitrary
`inside_code_block` flag: the accumulated `result_lines` and `fixes_made`. -/
def fixLinesGo (inside : Bool) : List String → List String × Nat
  | [] => ([], 0)
  | l :: rest =>
    ((fixLineStep inside l).1 :: (fixLinesGo (fixLineStep inside l).2.1 rest).1,
     (fixLineStep inside l).2.2 + (fixLinesGo (fixLineStep inside l).2.1 rest).2)

/-- The line transformation of `fix_md040_properly`: the loop started with
`inside_code_block = False`. -/
def fixLines (lines : List String) : List String × Nat :=
  fixLinesGo false lines

/-- The value of the `inside_code_block` flag just before the line at index
`i` is processed (the final flag when `i` is past the end). -/
def stateAt (inside : Bool) : List String → Nat → Bool
  | _, 0 => inside
  | [], _ + 1 => inside
  | l :: rest, i + 1 => stateAt (fixLineStep inside l).2.1 rest i

/-- Number of positions at which two line sequences differ (extra length in
either sequence is ignored; the sequences compared always have equal length). -/
def countDiffs : List String → List String → Nat
  | a :: as, b :: bs => (if a = b then 0 else 1) + countDiffs as bs
  | _, _ => 0

/-- How the file system answers the read in `fix_md040_properly`. -/
inductive ReadResult where
  | ok (lines : List String)
  | ioError
  | decodeError
deriving DecidableEq

/-- Observable outcome of one `fix_md040_properly` call that returns. -/
structure FileRun where
  success : Bool
  openedForWrite : Bool
  written : Option (List String)
  fixes : Nat
  errorReported : Bool
deriving DecidableEq

/-- The per-file outcome for a read that raises `IOError`: caught, an error
message is printed, and `False` is returned with no write attempted. -/
def readFailRun : FileRun :=
  ⟨false, false, none, 0, true⟩

/-- `fix_md040_properly`, given the file system's answers.  `none` models an
exception escaping the function: the `except IOError` clause does not catch
`UnicodeDecodeError`, so a decoding failure propagates to the caller. -/
def fix_md040_properly (r : ReadResult) (writable : Bool) : Option FileRun :=
  match r with
  | ReadResult.decodeError => none
  | ReadResult.ioError => some readFailRun
  | ReadResult.ok lines =>
    if (fixLines lines).2 > 0 then
      if writable then
        some ⟨true, true, some (fixLines lines).1, (fixLines lines).2, false⟩
      else
        some ⟨false, true, none, (fixLines lines).2, true⟩
    else
      some ⟨true, false, none, (fixLines lines).2, false⟩

/-- The loop of `main` over the argument files: the per-file outcomes in
order, and whether an uncaught exception aborted the loop. -/
def runBatch : List (ReadResult × Bool) → List FileRun × Bool
  | [] => ([], false)
  | f :: rest =>
    match fix_md040_properly f.1 f.2 with
    | none => ([], true)
    | some r => (r :: (runBatch rest).1, (runBatch rest).2)

/-- Whether one file would be processed successfully (read, and if fixes were
needed, written). -/
def fileOk (f : ReadResult × Bool) : Bool :=
  match fix_md040_properly f.1 f.2 with
  | some r => r.success
  | none => false

/-- The process exit code of `main`: `1` when an uncaught exception unwinds
the interpreter, `sys.exit(1)` when some file failed, `0` otherwise. -/
def exitCode (files : List (ReadResult × Bool)) : Nat :=
  if (runBatch files).2 then 1
  else if (runBatch files).1.all (fun r => r.success) then 0 else 1

/-! ## Helper lemmas about the line loop -/

theorem fixLineStep_bare_outside {l : String} (hb : matchBareFence (rstrip l) = true) :
    fixLineStep false l = (plaintextLine, true, 1) := by
  simp [fixLineStep, hb]

theorem fixLineStep_bare_inside {l : String} (hb : matchBareFence (rstrip l) = true) :
    fixLineStep true l = (l, false, 0) := by
  simp [fixLineStep, hb]

theorem fixLineStep_tagged {l : String} (b : Bool) (hb : matchBareFence (rstrip l) = false)
    (ht : matchTaggedFence (rstrip l) = true) :
    fixLineStep b l = (l, true, 0) := by
  simp [fixLineStep, hb, ht]

theorem fixLineStep_ordinary {l : String} (b : Bool) (hb : matchBareFence (rstrip l) = false)
    (ht : matchTaggedFence (rstrip l) = false) :
    fixLineStep b l = (l, b, 0) := by
  simp [fixLineStep, hb, ht]

theorem plaintext_not_bare : matchBareFence (rstrip plaintextLine) = false := by decide

theorem plaintext_tagged : matchTaggedFence (rstrip plaintextLine) = true := by decide

theorem bare_ne_plaintext {l : String} (hb : matchBareFence (rstrip l) = true) :
    l ≠ plaintextLine := by
  intro he
  rw [he, plaintext_not_bare] at hb
  exact Bool.false_ne_true hb

theorem fixLinesGo_length (ls : List String) :
    ∀ inside : Bool, (fixLinesGo inside ls).1.length = ls.length := by
  induction ls with
  | nil => intro _; rfl
  | cons x rest ih => intro inside; simp [fixLinesGo, ih]

theorem fixLinesGo_idem (ls : List String) :
    ∀ inside : Bool,
      fixLinesGo inside (fixLinesGo inside ls).1 = ((fixLinesGo inside ls).1, 0) := by
  induction ls with
  | nil => intro _; rfl
  | cons x rest ih =>
    intro inside
    cases hb : matchBareFence (rstrip x) with
    | true =>
      cases inside with
      | false =>
        have h2 : fixLineStep false plaintextLine = (plaintextLine, true, 0) :=
          fixLineStep_tagged false plaintext_not_bare plaintext_tagged
        simp [fixLinesGo, fixLineStep_bare_outside hb, h2, ih true]
      | true =>
        simp [fixLinesGo, fixLineStep_bare_inside hb, ih false]
    | false =>
      cases ht : matchTaggedFence (rstrip x) with
      | true => simp [fixLinesGo, fixLineStep_tagged _ hb ht, ih true]
      | false => simp [fixLinesGo, fixLineStep_ordinary _ hb ht, ih inside]

theorem fixLinesGo_getElem (ls : List String) :
    ∀ (inside : Bool) (i : Nat) (l : String), ls[i]? = some l →
      ((fixLinesGo inside ls).1)[i]? =
        some (if matchBareFence (rstrip l) && !(stateAt inside ls i) then plaintextLine
              else l) := by
  induction ls with
  | nil => intro inside i l h; simp at h
  | cons x rest ih =>
    intro inside i l h
    cases i with
    | zero =>
      obtain rfl : x = l := by simpa using h
      simp only [fixLinesGo, stateAt, List.getElem?_cons_zero, Option.some.injEq]
      cases hb : matchBareFence (rstrip x) with
      | true =>
        cases inside with
        | false => simp [fixLineStep_bare_outside hb, hb]
        | true => simp [fixLineStep_bare_inside hb, hb]
      | false =>
        cases ht : matchTaggedFence (rstrip x) with
        | true => simp [fixLineStep_tagged _ hb ht, hb]
        | false => simp [fixLineStep_ordinary _ hb ht, hb]
    | succ j =>
      rw [List.getElem?_cons_succ] at h
      simp only [fixLinesGo, List.getElem?_cons_succ, stateAt]
      exact ih (fixLineStep inside x).2.1 j l h

theorem countDiffs_fixLinesGo (ls : List String) :
    ∀ inside : Bool, countDiffs ls (fixLinesGo inside ls).1 = (fixLinesGo inside ls).2 := by
  induction ls with
  | nil => intro _; rfl
  | cons x rest ih =>
    intro inside
    cases hb : matchBareFence (rstrip x) with
    | true =>
      cases inside with
      | false =>
        simp [fixLinesGo, countDiffs, fixLineStep_bare_outside hb,
          bare_ne_plaintext hb, ih true]
      | true =>
        simp [fixLinesGo, countDiffs, fixLineStep_bare_inside hb, ih false]
    | false =>
      cases ht : matchTaggedFence (rstrip x) with
      | true => simp [fixLinesGo, countDiffs, fixLineStep_tagged _ hb ht, ih true]
      | false => simp [fixLinesGo, countDiffs, fixLineStep_ordinary _ hb ht, ih inside]

/-! ## Helper lemmas about the batch driver -/

theorem runBatch_append (xs ys : List (ReadResult × Bool)) :
    runBatch (xs ++ ys) =
      if (runBatch xs).2 then runBatch xs
      else ((runBatch xs).1 ++ (runBatch ys).1, (runBatch ys).2) := by
  induction xs with
  | nil => simp [runBatch]
  | cons f rest ih =>
    cases hf : fix_md040_properly f.1 f.2 with
    | none => simp [runBatch, hf]
    | some r =>
      by_cases h2 : (runBatch rest).2 = true <;>
        simp [runBatch, hf, ih, h2]

theorem runBatch_all_eq_fileOk (files : List (ReadResult × Bool)) :
    ((runBatch files).2 = false ∧ (runBatch files).1.all (fun r => r.success) = true) ↔
      files.all fileOk = true := by
  induction files with
  | nil => simp [runBatch]
  | cons f rest ih =>
    cases hf : fix_md040_properly f.1 f.2 with
    | none => simp [runBatch, hf, fileOk]
    | some r =>
      cases hr : r.success with
      | false => simp [runBatch, hf, fileOk, hr]
      | true =>
        simp only [runBatch, hf, fileOk, hr, List.all_cons, Bool.true_and]
        exact ih

theorem exitCode_eq_zero_iff (files : List (ReadResult × Bool)) :
    exitCode files = 0 ↔ files.all fileOk = true := by
  rw [← runBatch_all_eq_fileOk]
  unfold exitCode
  by_cases h1 : (runBatch files).2 = true
  · simp [h1]
  · by_cases h2 : (runBatch files).1.all (fun r => r.success) = true <;>
      simp [h1, h2]

theorem exitCode_zero_or_one (files : List (ReadResult × Bool)) :
    exitCode files = 0 ∨ exitCode files = 1 := by
  unfold exitCode
  split_ifs <;> simp

theorem runBatch_getElem (files : List (ReadResult × Bool)) :
    (runBatch files).2 = false →
      ∀ i : Nat, ((runBatch files).1)[i]? =
        (files[i]?).bind (fun f => fix_md040_properly f.1 f.2) := by
  induction files with
  | nil => intro _ i; simp [runBatch]
  | cons f rest ih =>
    intro h i
    cases hf : fix_md040_properly f.1 f.2 with
    | none => simp [runBatch, hf] at h
    | some r =>
      have h' : (runBatch rest).2 = false := by simpa [runBatch, hf] using h
      cases i with
      | zero => simp [runBatch, hf]
      | succ j => simp [runBatch, hf, ih h' j]

theorem runBatch_length (files : List (ReadResult × Bool)) :
    (runBatch files).2 = false →
      (runBatch files).1.length = files.length := by
  induction files with
  | nil => intro _; rfl
  | cons f rest ih =>
    intro h
    cases hf : fix_md040_properly f.1 f.2 with
    | none => simp [runBatch, hf] at h
    | some r =>
      have h' : (runBatch rest).2 = false := by simpa [runBatch, hf] using h
      simp [runBatch, hf, ih h']

/-! ## The claims -/

/-- C5: for every input line sequence, the output line sequence has the same
length as the input — every line is preserved or replaced 1:1. -/
theorem fixLines_length_preserved (ls : List String) :
    (fixLines ls).1.length = ls.length :=
  fixLinesGo_length ls false

/-- C3: the line-rewriting transformation is idempotent — applied to its own
output it returns that output unchanged and reports zero fixes. -/
theorem fixLines_idempotent (ls : List String) :
    fixLines (fixLines ls).1 = ((fixLines ls).1, 0) :=
  fixLinesGo_idem ls false

/-- C9: the reported fix count equals the number of positions at which the
output line differs from the input line, and a replaced line (a bare fence)
is never equal to its replacement. -/
theorem fixes_eq_changed_lines :
    (∀ ls : List String, countDiffs ls (fixLines ls).1 = (fixLines ls).2) ∧
    ∀ l : String, matchBareFence (rstrip l) = true → l ≠ plaintextLine :=
  ⟨fun ls => countDiffs_fixLinesGo ls false, fun _ hb => bare_ne_plaintext hb⟩

/-- Witness for C9 at the one-line document consisting of a bare fence. -/
theorem fixes_eq_changed_lines_witness :
    countDiffs ["```"] (fixLines ["```"]).1 = (fixLines ["```"]).2 ∧
    "```" ≠ plaintextLine :=
  ⟨fixes_eq_changed_lines.1 ["```"], fixes_eq_changed_lines.2 "```" (by decide)⟩

/-- C6: a line that is not a bare fence met in the `outside` state is emitted
byte-identical to the input at the same position. -/
theorem non_opening_lines_pass_through (ls : List String) (i : Nat) (l : String)
    (h : ls[i]? = some l)
    (hno : matchBareFence (rstrip l) = false ∨ stateAt false ls i = true) :
    ((fixLines ls).1)[i]? = some l := by
  have hg := fixLinesGo_getElem ls false i l h
  rcases hno with h1 | h1 <;> simpa [fixLines, h1] using hg

/-- Witness for C6: an ordinary text line passes through unchanged. -/
theorem non_opening_lines_pass_through_witness :
    ((fixLines ["txt"]).1)[0]? = some "txt" :=
  non_opening_lines_pass_through ["txt"] 0 "txt" (by decide) (Or.inl (by decide))

/-- C1 counterexample: a bare fence that is the final line without a trailing
newline is NOT replaced by the naked marker-plus-tag — the source always
appends the literal `'```plaintext\n'`, so the line gains a newline. -/
theorem bare_fence_final_line_gains_newline :
    (fixLines ["```"]).1 = ["```plaintext\n"] ∧
    (fixLines ["```"]).1 ≠ ["```plaintext"] := by
  constructor <;> decide

/-- C1 (amended): a bare fence met in the `outside` state is replaced by
exactly the string `'```plaintext\n'` — marker, tag and a line feed —
regardless of the original line's terminator. -/
theorem bare_fence_replaced_by_plaintext_lf (ls : List String) (i : Nat) (l : String)
    (h : ls[i]? = some l) (hb : matchBareFence (rstrip l) = true)
    (hs : stateAt false ls i = false) :
    ((fixLines ls).1)[i]? = some "```plaintext\n" := by
  have hg := fixLinesGo_getElem ls false i l h
  rw [hb, hs] at hg
  simpa [fixLines, plaintextLine] using hg

/-- Witness for the amended C1 at the one-line document. -/
theorem bare_fence_replaced_by_plaintext_lf_witness :
    ((fixLines ["```"]).1)[0]? = some "```plaintext\n" :=
  bare_fence_replaced_by_plaintext_lf ["```"] 0 "```" (by decide) (by decide) (by decide)

/-- C4: a bare fence met in the `inside` state is emitted unchanged, counts
no fix and toggles the state to `outside`; on the two-block document of
Scenario 3 both opening fences are labelled, fixes = 2, and the two closing
fences remain bare. -/
theorem closing_fence_unchanged_and_scenario3 :
    (∀ l : String, matchBareFence (rstrip l) = true →
        fixLineStep true l = (l, false, 0)) ∧
    fixLines ["```", "a", "```", "```", "b", "```"] =
      (["```plaintext\n", "a", "```", "```plaintext\n", "b", "```"], 2) :=
  ⟨fun _ hb => fixLineStep_bare_inside hb, by decide⟩

/-- Witness for C4: the closing-fence branch at the bare marker itself. -/
theorem closing_fence_unchanged_and_scenario3_witness :
    fixLineStep true "```" = ("```", false, 0) :=
  closing_fence_unchanged_and_scenario3.1 "```" (by decide)

/-- C10: an opening bare fence carrying trailing whitespace is replaced by
exactly marker + `plaintext` + line feed; the trailing whitespace is
discarded, not preserved. -/
theorem trailing_whitespace_discarded (l : String)
    (hb : matchBareFence (rstrip l) = true) (_hws : l ≠ rstrip l) :
    fixLineStep false l = ("```plaintext\n", true, 1) :=
  fixLineStep_bare_outside hb

/-- Witness for C10 at a bare fence followed by three spaces. -/
theorem trailing_whitespace_discarded_witness :
    fixLineStep false "```   " = ("```plaintext\n", true, 1) :=
  trailing_whitespace_discarded "```   " (by decide) (by decide)

/-- C7: on a file whose transformation makes zero fixes the file is not
opened for writing and nothing is written, and in every returning run the
write path is entered only when the fix count is positive. -/
theorem no_write_without_fixes :
    (∀ (lines : List String) (w : Bool), (fixLines lines).2 = 0 →
        fix_md040_properly (ReadResult.ok lines) w =
          some ⟨true, false, none, 0, false⟩) ∧
    ∀ (r : ReadResult) (w : Bool) (run : FileRun),
      fix_md040_properly r w = some run → run.openedForWrite = true →
        0 < run.fixes := by
  constructor
  · intro lines w h
    simp [fix_md040_properly, h]
  · intro r w run hr ho
    cases r with
    | decodeError => simp [fix_md040_properly] at hr
    | ioError =>
      simp [fix_md040_properly] at hr
      rw [← hr] at ho
      exact absurd ho (by decide)
    | ok lines =>
      by_cases h1 : (fixLines lines).2 > 0
      · by_cases h2 : w = true
        · simp [fix_md040_properly, h1, h2] at hr
          rw [← hr]
          exact h1
        · simp [fix_md040_properly, h1, h2] at hr
          rw [← hr]
          exact h1
      · simp [fix_md040_properly, h1] at hr
        rw [← hr] at ho
        simp at ho

/-- Witness for C7: a clean file is not opened for writing; a fixed file's
run has a positive fix count. -/
theorem no_write_without_fixes_witness :
    fix_md040_properly (ReadResult.ok ["a"]) true = some ⟨true, false, none, 0, false⟩ ∧
    0 < (FileRun.mk true true (some ["```plaintext\n"]) 1 false).fixes :=
  ⟨no_write_without_fixes.1 ["a"] true (by decide),
   no_write_without_fixes.2 (ReadResult.ok ["```"]) true
     ⟨true, true, some ["```plaintext\n"], 1, false⟩ (by decide) (by decide)⟩

/-- C2 counterexample: a decoding failure is not caught by `except IOError`:
the call produces no per-file failure value, and the following file of the
batch is never processed. -/
theorem decode_failure_aborts_batch :
    fix_md040_properly ReadResult.decodeError false = none ∧
    runBatch [(ReadResult.decodeError, false), (ReadResult.ok ["b"], true)] =
      ([], true) := by
  constructor <;> decide

/-- C2 (amended): a read failing with an OS-level `IOError` yields a reported
per-file failure with no fixes and no write, the remaining files are still
processed in order, and the run exits non-zero; a decoding failure also makes
the run exit non-zero (by aborting the batch). -/
theorem read_failure_reported_and_continues
    (pre post : List (ReadResult × Bool)) (w : Bool)
    (hpre : (runBatch pre).2 = false) :
    fix_md040_properly ReadResult.ioError w = some readFailRun ∧
    readFailRun.success = false ∧
    readFailRun.errorReported = true ∧
    readFailRun.fixes = 0 ∧
    readFailRun.written = none ∧
    runBatch (pre ++ (ReadResult.ioError, w) :: post) =
      ((runBatch pre).1 ++ readFailRun :: (runBatch post).1, (runBatch post).2) ∧
    exitCode (pre ++ (ReadResult.ioError, w) :: post) = 1 ∧
    exitCode (pre ++ (ReadResult.decodeError, w) :: post) = 1 := by
  have hio : runBatch ((ReadResult.ioError, w) :: post) =
      (readFailRun :: (runBatch post).1, (runBatch post).2) := by
    simp [runBatch, fix_md040_properly]
  have hbatch : runBatch (pre ++ (ReadResult.ioError, w) :: post) =
      ((runBatch pre).1 ++ readFailRun :: (runBatch post).1, (runBatch post).2) := by
    rw [runBatch_append, hpre, hio]
    simp
  have hdec : runBatch (pre ++ (ReadResult.decodeError, w) :: post) =
      ((runBatch pre).1 ++ ([] : List FileRun), true) := by
    rw [runBatch_append, hpre]
    simp [runBatch, fix_md040_properly]
  refine ⟨rfl, rfl, rfl, rfl, rfl, hbatch, ?_, ?_⟩
  · unfold exitCode
    rw [hbatch]
    by_cases hp : (runBatch post).2 = true
    · simp [hp]
    · simp [hp, readFailRun]
  · unfold exitCode
    rw [hdec]
    simp

/-- Witness for the amended C2: an unreadable first file still lets the
second file run, and the batch exits 1. -/
theorem read_failure_reported_and_continues_witness :
    exitCode [(ReadResult.ioError, true), (ReadResult.ok ["b"], true)] = 1 :=
  (read_failure_reported_and_continues [] [(ReadResult.ok ["b"], true)] true
    (by decide)).2.2.2.2.2.2.1

/-- C8 counterexample: with a decoding-failure file first, the exit code is
non-zero but the remaining file of the batch is NOT processed: the batch
records no per-file outcome at all. -/
theorem crash_skips_remaining_files :
    exitCode [(ReadResult.decodeError, true), (ReadResult.ok ["c"], true)] = 1 ∧
    (runBatch [(ReadResult.decodeError, true), (ReadResult.ok ["c"], true)]).1
      = [] := by
  constructor <;> decide

/-- C8 (amended): the process exits 0 iff every supplied file would be
processed successfully (read, and written when fixes were needed); any other
outcome exits 1; and as long as no uncaught exception occurs, every supplied
file is processed in the order given, failures included. -/
theorem exit_code_zero_iff_all_ok (files : List (ReadResult × Bool)) :
    (exitCode files = 0 ↔ files.all fileOk = true) ∧
    (exitCode files ≠ 0 → exitCode files = 1) ∧
    ((runBatch files).2 = false →
      (runBatch files).1.length = files.length ∧
      ∀ i : Nat, ((runBatch files).1)[i]? =
        (files[i]?).bind (fun f => fix_md040_properly f.1 f.2)) := by
  refine ⟨exitCode_eq_zero_iff files, ?_,
    fun h => ⟨runBatch_length files h, runBatch_getElem files h⟩⟩
  intro h
  rcases exitCode_zero_or_one files with h0 | h1
  · exact absurd h0 h
  · exact h1

/-- Witness for the amended C8 on a two-file batch with one I/O failure. -/
theorem exit_code_zero_iff_all_ok_witness :
    (runBatch [(ReadResult.ioError, true), (ReadResult.ok ["d"], true)]).1.length = 2 :=
  ((exit_code_zero_iff_all_ok [(ReadResult.ioError, true), (ReadResult.ok ["d"], true)]).2.2
    (by decide)).1
